import Mathlib

/-!
Verification of the email triage engine in `supervisor_demo.py`.

Python strings are modelled as `List Char` (Unicode code points, matching
Python string indexing/length semantics).  `str.lower` is modelled for the
character repertoire actually occurring in this repository (ASCII plus the
Spanish accented letters used by the term dictionaries).  CPython `float`
arithmetic is modelled exactly over `ℚ`; every constant in the source
(1.2, 1.3, 1.1, the integral risk contributions) is decimal, and `round`
is modelled as round-half-to-even at two decimals, as in Python.
`list(set(..))` is modelled by `List.dedup` (order of a Python set is not
observable anywhere in the decision logic).
-/

namespace SupervisorDemo

/-- A Python string: the list of its characters. -/
abbrev Str := List Char

/-- Turn string literals into `Str` values. -/
def strs (l : List String) : List Str := l.map (fun s => s.data)

/-- `str.lower` for one character: ASCII A-Z plus the Spanish capital
letters that can occur with the bundled English/Spanish term lists.
(CPython lowers the full Unicode range; only these occur here.) -/
def lowerChar (c : Char) : Char :=
  if 'A' ≤ c ∧ c ≤ 'Z' then Char.ofNat (c.toNat + 32)
  else if c = 'Á' then 'á'
  else if c = 'É' then 'é'
  else if c = 'Í' then 'í'
  else if c = 'Ó' then 'ó'
  else if c = 'Ú' then 'ú'
  else if c = 'Ñ' then 'ñ'
  else if c = 'Ü' then 'ü'
  else c

/-- `str.lower` on a whole string. -/
def lowerStr (s : Str) : Str := s.map lowerChar

/-- All suffixes of a string, longest first (including the empty suffix). -/
def suffixes : Str → List Str
  | [] => [[]]
  | c :: r => (c :: r) :: suffixes r

/-- Python `needle in haystack` for strings: substring containment.
(The empty needle is contained in everything, as in Python.) -/
def isSub (needle haystack : Str) : Bool :=
  (suffixes haystack).any (fun t => decide (t.take needle.length = needle))

/-- `Email` dataclass (source lines 6-10). -/
structure Email where
  sender : Str
  subject : Str
  body : Str

/-- `FREE_DOMAINS` (source lines 13-15). -/
def FREE_DOMAINS : List Str := strs
  ["gmail.com", "yahoo.com", "hotmail.com", "outlook.com", "live.com",
   "icloud.com", "proton.me", "protonmail.com"]

/-- `ROLE_TERMS` (source lines 17-21); note that "director" is listed
twice, once in the English block and once in the Spanish block. -/
def ROLE_TERMS : List Str := strs
  ["ceo", "cfo", "coo", "cto", "chairman", "board", "director", "vp",
   "vice president", "general counsel", "legal counsel", "head of",
   "founder", "owner", "president",
   "dirección", "director", "consejo", "presidente", "propietario",
   "fundador", "asesoría jurídica"]

/-- `URGENCY_TERMS` (source lines 23-26). -/
def URGENCY_TERMS : List Str := strs
  ["urgent", "asap", "immediately", "today", "right away", "time-sensitive",
   "confidential", "urgente", "inmediato", "hoy", "confidencial", "reservado"]

/-- `SECURITY_TERMS` (source lines 28-33); "phishing" is listed twice. -/
def SECURITY_TERMS : List Str := strs
  ["password", "reset", "2fa", "authentication", "login", "breach", "hack",
   "phishing", "contraseña", "acceso", "intrusión", "hackeo", "suplantación",
   "phishing", "wire transfer", "bank details", "change payment",
   "invoice change", "transferencia", "cambiar pago", "cambio de cuenta",
   "datos bancarios"]

/-- The five intent categories, in the declaration order of `INTENT_RULES`. -/
inductive Intent where
  | M_AND_A
  | LEGAL
  | SECURITY
  | SALES
  | SUPPORT
deriving DecidableEq

/-- One entry of `INTENT_RULES`: a weight and a term list. -/
structure IntentRule where
  weight : Nat
  terms : List Str
deriving DecidableEq

/-- `INTENT_RULES` (source lines 35-70), in declaration order. -/
def INTENT_RULES : List (Intent × IntentRule) :=
  [(Intent.M_AND_A,
    ⟨5, strs
      ["acquire", "acquisition", "buy your company", "purchase your company",
       "merger", "m&a", "investment proposal", "valuation", "term sheet",
       "due diligence", "equity", "stake",
       "adquirir", "compra de la empresa", "comprar la compañía", "fusión",
       "adquisición", "oferta de compra", "valoración", "participación",
       "inversión"]⟩),
   (Intent.LEGAL,
    ⟨4, strs
      ["contract", "agreement", "nda", "gdpr", "compliance", "lawsuit",
       "legal notice", "contrato", "acuerdo", "nda", "rgpd", "cumplimiento",
       "demanda", "notificación legal"]⟩),
   (Intent.SECURITY, ⟨5, SECURITY_TERMS⟩),
   (Intent.SALES,
    ⟨2, strs
      ["pricing", "quote", "proposal", "demo", "partnership", "reseller",
       "precio", "presupuesto", "propuesta", "demostración", "colaboración"]⟩),
   (Intent.SUPPORT,
    ⟨1, strs
      ["help", "issue", "bug", "problem", "doesn\x27t work", "error",
       "ayuda", "incidencia", "fallo", "no funciona", "problema"]⟩)]

/-! ### Pattern extractors (source lines 73-107)

Each `re` pattern of the source is modelled by a hand-rolled matcher with
the same leftmost, greedy-with-backtracking semantics, and `re.findall` /
`re.search` by the corresponding scan. -/

/-- The class `[A-Za-z0-9.-]` of the domain regex (source line 74). -/
def isHostChar (c : Char) : Bool := c.isAlphanum || c = '.' || c = '-'

/-- After giving the `+` back down to `k` characters, can the regex
continue with `\.[A-Za-z]{2,}` at offset `k`? -/
def hostOkAt (l : Str) (k : Nat) : Bool :=
  match l.drop k with
  | '.' :: a :: b :: _ => a.isAlpha && b.isAlpha
  | _ => false

/-- Match `([A-Za-z0-9.-]+\.[A-Za-z]{2,})` at the head of `l` (the part of
the sender after an `@`), greedily, returning the captured group. -/
def matchHost (l : Str) : Option Str :=
  match (List.range ((l.takeWhile isHostChar).length)).reverse.findSome?
      (fun i => if hostOkAt l (i + 1) then some (i + 1) else none) with
  | some k => some (l.take k ++ '.' :: (l.drop (k + 1)).takeWhile (fun c => c.isAlpha))
  | none => none

/-- `extract_email_domain` (source lines 73-75): leftmost search for
`@([A-Za-z0-9.-]+\.[A-Za-z]{2,})`, returning the lower-cased group, or
`none` when the sender contains no such substring. -/
def extract_email_domain : Str → Option Str
  | [] => none
  | c :: rest =>
    if c = '@' then
      match matchHost rest with
      | some g => some (lowerStr g)
      | none => extract_email_domain rest
    else extract_email_domain rest

/-- Python `\s` (ASCII range): space, tab, newline, CR, VT, FF. -/
def isSpaceB (c : Char) : Bool :=
  c = ' ' || c = '\t' || c = '\n' || c = '\r' || c = '\x0b' || c = '\x0c'

/-- Compare a prefix of `s` with `pat` after lower-casing (`re.IGNORECASE`;
`pat` is already lower case). -/
def lowEq (s pat : Str) : Bool := decide ((s.take pat.length).map lowerChar = pat)

/-- The Spanish letters that occur in this repository (they are word
characters for Python `\b`). -/
def spanishLetters : List Char :=
  ['á', 'é', 'í', 'ó', 'ú', 'ñ', 'ü', 'Á', 'É', 'Í', 'Ó', 'Ú', 'Ñ', 'Ü']

/-- Python `\w` for the character repertoire of this repository. -/
def isWordChar (c : Char) : Bool :=
  c.isAlphanum || c = '_' || spanishLetters.contains c

/-- Word-character test through an `Option` (string edges are non-word). -/
def wordOpt : Option Char → Bool
  | some c => isWordChar c
  | none => false

/-- The class `[\d.,]` of the money regexes. -/
def isNumChar (c : Char) : Bool := c.isDigit || c = '.' || c = ','

/-- Match `\d[\d.,]*\b` at the head of `l`: greedy run of `[\d.,]`, given
back until the trailing word boundary holds. Returns the match length. -/
def matchNumTail : Str → Option Nat
  | [] => none
  | d :: r =>
    if d.isDigit then
      match (List.range ((r.takeWhile isNumChar).length + 1)).reverse.find?
          (fun j => isWordChar (if j = 0 then d else r.getD (j - 1) d)
                      != wordOpt (r.drop j).head?) with
      | some j => some (1 + j)
      | none => none
    else none

/-- Match `X\s?\d[\d.,]*\b` at the head (patterns 1 and 2 of `find_money`,
`X` being `€` or `$`). -/
def matchCurrencyPrefix (sym : Char) : Str → Option Nat
  | [] => none
  | c :: r =>
    if c = sym then
      match r with
      | s :: r2 =>
        if isSpaceB s then (matchNumTail r2).map (fun n => n + 2)
        else (matchNumTail r).map (fun n => n + 1)
      | [] => none
    else none

/-- The alternation `(m|million|millones|b|billion|mil)`, in order. -/
def MAG_WORDS : List Str := strs ["m", "million", "millones", "b", "billion", "mil"]

/-- Try the magnitude-word alternatives (in order) at the head of `rest2`,
each followed by a word boundary; returns (consumed length, group text). -/
def tryMagWords (rest2 : Str) : Option (Nat × Str) :=
  MAG_WORDS.findSome? (fun alt =>
    if lowEq rest2 alt && !(wordOpt (rest2.drop alt.length).head?) then
      some (alt.length, rest2.take alt.length)
    else none)

/-- Match `\b\d[\d.,]*\s?(m|million|millones|b|billion|mil)\b` at the head
(pattern 3 of `find_money`); `re.findall` yields the captured group, so the
group text is returned together with the total match length. -/
def matchMagnitude (prev : Option Char) : Str → Option (Nat × Str)
  | [] => none
  | d :: r =>
    if d.isDigit && !(wordOpt prev) then
      (List.range ((r.takeWhile isNumChar).length + 1)).reverse.findSome?
        (fun j =>
          let rest1 := r.drop j
          let wsOpts : List Nat :=
            match rest1 with
            | s :: _ => if isSpaceB s then [1, 0] else [0]
            | [] => [0]
          wsOpts.findSome? (fun ws =>
            (tryMagWords (rest1.drop ws)).map
              (fun p => (1 + j + ws + p.1, p.2))))
    else none

/-- Match `\b\d{2,}\s?X\b` at the head (patterns 4 and 5 of `find_money`).
After the non-word currency symbol, `\b` demands a following word char. -/
def matchTrailing (sym : Char) : Option Char → Str → Option Nat
  | _, [] => none
  | prev, d :: r =>
    if d.isDigit && !(wordOpt prev) then
      (List.range ((r.takeWhile (fun c => c.isDigit)).length + 1)).reverse.findSome?
        (fun j =>
          if 2 ≤ 1 + j then
            let rest1 := r.drop j
            let wsOpts : List Nat :=
              match rest1 with
              | s :: _ => if isSpaceB s then [1, 0] else [0]
              | [] => [0]
            wsOpts.findSome? (fun ws =>
              match rest1.drop ws with
              | c :: rest2 =>
                if c == sym && wordOpt rest2.head? then
                  some (1 + j + ws + 1)
                else none
              | [] => none)
          else none)
    else none

/-- Match `https?://\S+|www\.\S+` at the head (case-insensitive),
alternatives in order, `s?` and `\S+` greedy. -/
def matchUrl (l : Str) : Option Nat :=
  let tryAt := fun (off : Nat) =>
    if lowEq (l.drop off) ("://".data) then
      let run := ((l.drop (off + 3)).takeWhile (fun c => !isSpaceB c)).length
      if run = 0 then none else some (off + 3 + run)
    else none
  let tryHttp :=
    if lowEq l ("http".data) then
      if lowEq (l.drop 4) ("s".data) then
        match tryAt 5 with
        | some n => some n
        | none => tryAt 4
      else tryAt 4
    else none
  match tryHttp with
  | some n => some n
  | none =>
    if lowEq l ("www.".data) then
      let run := ((l.drop 4).takeWhile (fun c => !isSpaceB c)).length
      if run = 0 then none else some (4 + run)
    else none

/-- The class `[\d\s().-]` of the phone regex. -/
def isPhoneChar (c : Char) : Bool :=
  c.isDigit || isSpaceB c || c = '(' || c = ')' || c = '.' || c = '-'

/-- Match `\d[\d\s().-]{7,}\d` at the head: greedy run of the class, given
back until a digit follows; returns the match length. -/
def matchPhoneCore : Str → Option Nat
  | [] => none
  | d :: r =>
    if d.isDigit then
      match (List.range ((r.takeWhile isPhoneChar).length + 1)).reverse.find?
          (fun j => decide (7 ≤ j) && ((r.drop j).head?.any (fun c => c.isDigit))) with
      | some j => some (1 + j + 1)
      | none => none
    else none

/-- Match `\+?\d[\d\s().-]{7,}\d` at the head: an optional leading `+`. -/
def matchPhone (l : Str) : Option Nat :=
  match l with
  | '+' :: r => (matchPhoneCore r).map (fun n => n + 1)
  | _ => matchPhoneCore l

/-- Non-overlapping `re.findall`-style scan for a matcher that sees the
previous character (for `\b` at the start of a pattern), collecting the
matched substrings; on failure the scan advances one character. -/
def scanWithPrev (m : Option Char → Str → Option Nat) :
    Nat → Option Char → Str → List Str
  | 0, _, _ => []
  | _ + 1, _, [] => []
  | fuel + 1, prev, l =>
    match m prev l with
    | some n => l.take n :: scanWithPrev m fuel (l.drop (n - 1)).head? (l.drop n)
    | none => scanWithPrev m fuel l.head? (l.drop 1)

/-- Scan for pattern 3 of `find_money`, collecting the captured groups. -/
def scanMagnitude : Nat → Option Char → Str → List Str
  | 0, _, _ => []
  | _ + 1, _, [] => []
  | fuel + 1, prev, l =>
    match matchMagnitude prev l with
    | some (n, grp) => grp :: scanMagnitude fuel (l.drop (n - 1)).head? (l.drop n)
    | none => scanMagnitude fuel l.head? (l.drop 1)

/-- Python `str(x).strip()` truthiness: some non-whitespace character. -/
def stripNonEmpty (s : Str) : Bool := s.any (fun c => !isSpaceB c)

/-- `find_money` (source lines 88-99): the five scans concatenated in
order, blank matches dropped, then `list(set(..))`. -/
def find_money (text : Str) : List Str :=
  let fuel := text.length + 1
  let found :=
    scanWithPrev (fun _ l => matchCurrencyPrefix '€' l) fuel none text
    ++ scanWithPrev (fun _ l => matchCurrencyPrefix '$' l) fuel none text
    ++ scanMagnitude fuel none text
    ++ scanWithPrev (matchTrailing '€') fuel none text
    ++ scanWithPrev (matchTrailing '$') fuel none text
  (found.filter stripNonEmpty).dedup

/-- `find_urls` (source lines 102-103). -/
def find_urls (text : Str) : List Str :=
  (scanWithPrev (fun _ l => matchUrl l) (text.length + 1) none text).dedup

/-- `find_phones` (source lines 106-107). -/
def find_phones (text : Str) : List Str :=
  (scanWithPrev (fun _ l => matchPhone l) (text.length + 1) none text).dedup

/-- `contains_any` (source lines 78-80). -/
def contains_any (text : Str) (terms : List Str) : Bool :=
  terms.any (fun term => isSub term (lowerStr text))

/-- `count_any` (source lines 83-85): `sum(1 for term in terms if term in t)`
iterates over the list, so an entry occurring twice is counted twice. -/
def count_any (text : Str) (terms : List Str) : Nat :=
  terms.countP (fun term => isSub term (lowerStr text))

/-! ### Intent scorer (source lines 110-124) -/

/-- Python dict assignment `m[k] = v` for a key already present: the value
is replaced in place, insertion order preserved. -/
def dictSet {α : Type} (m : List (Intent × α)) (k : Intent) (v : α) :
    List (Intent × α) :=
  m.map (fun p => if p.1 = k then (k, v) else p)

/-- Python `scores.get(k, 0)`. -/
def getScore (m : List (Intent × Nat)) (k : Intent) : Nat :=
  match m.find? (fun p => decide (p.1 = k)) with
  | some p => p.2
  | none => 0

/-- Evidence lookup (`intent_evidence[k]`, every key being present). -/
def getEvidence (m : List (Intent × List Str)) (k : Intent) : List Str :=
  match m.find? (fun p => decide (p.1 = k)) with
  | some p => p.2
  | none => []

/-- Lexicographic (code-point) order on strings, as used by Python
`sorted` on `str`. -/
def strLe : Str → Str → Bool
  | [], _ => true
  | _ :: _, [] => false
  | a :: as, b :: bs =>
    if a < b then true
    else if b < a then false
    else strLe as bs

/-- Insert into a `strLe`-sorted list. -/
def insertLe (x : Str) : List Str → List Str
  | [] => [x]
  | y :: ys => if strLe x y then x :: y :: ys else y :: insertLe x ys

/-- Python `sorted` on a list of strings. -/
def sortStr (l : List Str) : List Str := l.foldr insertLe []

/-- The `hits` list built by the inner loop of `score_intents` (source
lines 116-119): the terms of the rule, in list order, that occur in the
lower-cased text. -/
def hitsFor (text : Str) (r : IntentRule) : List Str :=
  r.terms.filter (fun term => isSub (lowerStr term) text)

/-- One iteration of the `for intent, rule in INTENT_RULES.items()` loop
(source lines 115-122), updating the two dicts. -/
def applyRule (text : Str)
    (acc : List (Intent × Nat) × List (Intent × List Str))
    (r : Intent × IntentRule) :
    List (Intent × Nat) × List (Intent × List Str) :=
  let hits := hitsFor text r.2
  if hits.isEmpty then acc
  else
    (dictSet acc.1 r.1 (getScore acc.1 r.1 + r.2.weight * hits.dedup.length),
     dictSet acc.2 r.1 (sortStr hits.dedup))

/-- `score_intents` (source lines 110-124): both dicts are initialised
with every category (score 0, empty evidence) and then updated in
declaration order. -/
def score_intents (subject body : Str) :
    List (Intent × Nat) × List (Intent × List Str) :=
  let text := lowerStr (subject ++ '\n' :: body)
  INTENT_RULES.foldl (applyRule text)
    (INTENT_RULES.map (fun r => (r.1, 0)),
     INTENT_RULES.map (fun r => (r.1, ([] : List Str))))

/-! ### Feature extractor (source lines 127-144) -/

/-- The feature bundle returned by `extract_features`. -/
structure Features where
  sender_domain : Str
  sender_is_free_domain : Bool
  mentions_roles : Bool
  role_hits : Nat
  mentions_urgency : Bool
  urgency_hits : Nat
  money_mentions : List Str
  urls : List Str
  phones : List Str
  length : Nat
deriving DecidableEq

/-- `extract_features` (source lines 127-144).  `domain or ""` yields the
empty string when the domain is `None`; `domain in FREE_DOMAINS if domain
else True` treats an unparseable sender as free-domain. -/
def extract_features (email : Email) : Features :=
  let domain := (extract_email_domain email.sender).getD []
  let text := email.subject ++ '\n' :: email.body
  { sender_domain := domain
    sender_is_free_domain :=
      if domain = [] then true else decide (domain ∈ FREE_DOMAINS)
    mentions_roles := contains_any text ROLE_TERMS
    role_hits := count_any text ROLE_TERMS
    mentions_urgency := contains_any text URGENCY_TERMS
    urgency_hits := count_any text URGENCY_TERMS
    money_mentions := find_money text
    urls := find_urls text
    phones := find_phones text
    length := text.length }

/-! ### Decision engine (source lines 147-197) -/

/-- The three possible actions. -/
inductive Action where
  | AUTO_REPLY
  | ESCALATE_HUMAN
  | BLOCK
deriving DecidableEq

/-- The decision record returned by `decide_action`. -/
structure Decision where
  action : Action
  risk : ℚ
  intent_scores : List (Intent × Nat)
  intent_evidence : List (Intent × List Str)
  features : Features
deriving DecidableEq

/-- `strong_security_terms` (source line 153). -/
def strong_security_terms : List Str := strs
  ["breach", "hack", "phishing", "wire transfer", "bank details",
   "datos bancarios", "transferencia"]

/-- `text_all` (source line 154): the lower-cased subject+body. -/
def text_all (email : Email) : Str := lowerStr (email.subject ++ '\n' :: email.body)

/-- `has_strong_security` (source line 155). -/
def has_strong_security (email : Email) : Bool :=
  strong_security_terms.any (fun t => isSub t (text_all email))

/-- The intent scores after the security-suppression rule (source lines
151-158): if the SUPPORT score is at least 1, the SECURITY score is
positive, and no strong security term occurs, the SECURITY score is
forced to 0. -/
def suppressed_scores (email : Email) : List (Intent × Nat) :=
  if 1 ≤ getScore (score_intents email.subject email.body).1 Intent.SUPPORT
      ∧ 0 < getScore (score_intents email.subject email.body).1 Intent.SECURITY
      ∧ has_strong_security email = false then
    dictSet (score_intents email.subject email.body).1 Intent.SECURITY 0
  else (score_intents email.subject email.body).1

/-- Round half to even, as Python `round`. -/
def roundHalfEven (q : ℚ) : ℤ :=
  let f : ℤ := ⌊q⌋
  if q - f < 1 / 2 then f
  else if 1 / 2 < q - f then f + 1
  else if f % 2 = 0 then f else f + 1

/-- Python `round(x, 2)`. -/
def pyRound2 (q : ℚ) : ℚ := (roundHalfEven (q * 100) : ℚ) / 100

/-- `strategic_risk` (source lines 160-164), over the post-suppression
scores (the dict was mutated in place before this point). -/
def strategic_risk (email : Email) : ℚ :=
  (getScore (suppressed_scores email) Intent.M_AND_A : ℚ) * 1.2
    + (if (extract_features email).mentions_roles = true then 4 else 0)
    + (if (extract_features email).mentions_urgency = true then 2 else 0)
    + (if (extract_features email).money_mentions ≠ [] then 3 else 0)

/-- `operational_risk` (source lines 166-168). -/
def operational_risk (email : Email) : ℚ :=
  (getScore (suppressed_scores email) Intent.SECURITY : ℚ) * 1.3
    + (getScore (suppressed_scores email) Intent.LEGAL : ℚ) * 1.1

/-- `trust_penalty` (source lines 170-176): three independent +2
contributions. -/
def trust_penalty (email : Email) : ℚ :=
  (if (extract_features email).sender_is_free_domain = true then 2 else 0)
    + (if 2 ≤ (extract_features email).urls.length then 2 else 0)
    + (if 1 ≤ (extract_features email).phones.length
          ∧ 0 < getScore (suppressed_scores email) Intent.SECURITY then 2 else 0)

/-- `total_risk` (source line 178). -/
def total_risk (email : Email) : ℚ :=
  strategic_risk email + operational_risk email + trust_penalty email

/-- The action cascade (source lines 180-189), first matching rule wins. -/
def chooseAction (email : Email) : Action :=
  if 10 ≤ getScore (suppressed_scores email) Intent.SECURITY
      ∧ 3 ≤ trust_penalty email then Action.BLOCK
  else if 5 ≤ getScore (suppressed_scores email) Intent.M_AND_A
      ∨ 8 ≤ getScore (suppressed_scores email) Intent.LEGAL then Action.ESCALATE_HUMAN
  else if (extract_features email).mentions_roles = true
      ∧ (extract_features email).mentions_urgency = true
      ∧ (extract_features email).money_mentions ≠ [] then Action.ESCALATE_HUMAN
  else if 10 ≤ total_risk email then Action.ESCALATE_HUMAN
  else Action.AUTO_REPLY

/-- `decide_action` (source lines 147-197). -/
def decide_action (email : Email) : Decision :=
  { action := chooseAction email
    risk := pyRound2 (total_risk email)
    intent_scores := suppressed_scores email
    intent_evidence := (score_intents email.subject email.body).2
    features := extract_features email }

/-! ### Derived notions used by the statements -/

/-- The score one category ends up with in `score_intents`. -/
def catScore (text : Str) (r : Intent × IntentRule) : Nat :=
  if (hitsFor text r.2).isEmpty then 0
  else r.2.weight * (hitsFor text r.2).dedup.length

/-- The evidence one category ends up with in `score_intents`. -/
def catEvidence (text : Str) (r : Intent × IntentRule) : List Str :=
  if (hitsFor text r.2).isEmpty then []
  else sortStr (hitsFor text r.2).dedup

/-- The weight `INTENT_RULES` declares for a category. -/
def weightOf (k : Intent) : Nat :=
  match INTENT_RULES.find? (fun r => decide (r.1 = k)) with
  | some r => r.2.weight
  | none => 0

/-- A suffix of the sender does not start with `@` followed by a host
matching `([A-Za-z0-9.-]+\.[A-Za-z]{2,})`.  `(suffixes s).all noAt` states
that the sender contains no address-like substring at all. -/
def noAt : Str → Bool
  | [] => true
  | c :: r => if c = '@' then (matchHost r).isNone else true

/-- The term list `INTENT_RULES` declares for a category. -/
def termsOf (k : Intent) : List Str :=
  match INTENT_RULES.find? (fun r => decide (r.1 = k)) with
  | some r => r.2.terms
  | none => []

/-! ### Helper lemmas -/

theorem da_action (e : Email) : (decide_action e).action = chooseAction e := rfl

theorem da_risk (e : Email) : (decide_action e).risk = pyRound2 (total_risk e) := rfl

theorem da_scores (e : Email) :
    (decide_action e).intent_scores = suppressed_scores e := rfl

theorem da_evidence (e : Email) :
    (decide_action e).intent_evidence = (score_intents e.subject e.body).2 := rfl

theorem da_features (e : Email) :
    (decide_action e).features = extract_features e := rfl

/-- Unrolling the imperative loop of `score_intents`: each category ends
up with exactly its own score and evidence. -/
theorem score_intents_eq (subject body : Str) :
    score_intents subject body =
      (INTENT_RULES.map
        (fun r => (r.1, catScore (lowerStr (subject ++ '\n' :: body)) r)),
       INTENT_RULES.map
        (fun r => (r.1, catEvidence (lowerStr (subject ++ '\n' :: body)) r))) := by
  unfold score_intents INTENT_RULES applyRule catScore catEvidence
  dsimp only [List.foldl_cons, List.foldl_nil, List.map_cons, List.map_nil]
  split_ifs <;> simp [dictSet, getScore]

theorem getScore_cat (subject body : Str) (k : Intent) :
    getScore (score_intents subject body).1 k =
      catScore (lowerStr (subject ++ '\n' :: body)) (k, ⟨weightOf k, termsOf k⟩) := by
  rw [score_intents_eq]
  cases k <;> rfl

theorem getEvidence_cat (subject body : Str) (k : Intent) :
    getEvidence (score_intents subject body).2 k =
      catEvidence (lowerStr (subject ++ '\n' :: body)) (k, ⟨weightOf k, termsOf k⟩) := by
  rw [score_intents_eq]
  cases k <;> rfl

theorem insertLe_length (x : Str) (l : List Str) :
    (insertLe x l).length = l.length + 1 := by
  induction l with
  | nil => rfl
  | cons y ys ih =>
    unfold insertLe
    split_ifs <;> simp [ih]

theorem sortStr_length (l : List Str) : (sortStr l).length = l.length := by
  induction l with
  | nil => rfl
  | cons a l ih =>
    show (insertLe a (sortStr l)).length = l.length + 1
    rw [insertLe_length, ih]

theorem insertLe_perm (x : Str) (l : List Str) : (insertLe x l).Perm (x :: l) := by
  induction l with
  | nil => exact List.Perm.refl _
  | cons y ys ih =>
    unfold insertLe
    split_ifs
    · exact List.Perm.refl _
    · exact (ih.cons y).trans (List.Perm.swap x y ys)

theorem sortStr_perm (l : List Str) : (sortStr l).Perm l := by
  induction l with
  | nil => exact List.Perm.refl _
  | cons a l ih =>
    show (insertLe a (sortStr l)).Perm (a :: l)
    exact (insertLe_perm a (sortStr l)).trans (ih.cons a)

theorem strLe_total (a b : Str) : strLe a b = true ∨ strLe b a = true := by
  induction a generalizing b with
  | nil => left; rfl
  | cons x xs ih =>
    cases b with
    | nil => right; rfl
    | cons y ys =>
      by_cases h1 : x < y
      · left
        simp [strLe, h1]
      · by_cases h2 : y < x
        · right
          simp [strLe, h1, h2]
        · rcases ih ys with h | h
          · left
            simp [strLe, h1, h2, h]
          · right
            simp [strLe, h1, h2, h]

theorem insertLe_head (x : Str) (l : List Str) :
    (insertLe x l).head? = some x ∨ (insertLe x l).head? = l.head? := by
  cases l with
  | nil => left; rfl
  | cons y ys =>
    unfold insertLe
    split_ifs
    · left; rfl
    · right; rfl

theorem chain_insertLe (x : Str) (l : List Str)
    (h : List.Chain' (fun a b => strLe a b = true) l) :
    List.Chain' (fun a b => strLe a b = true) (insertLe x l) := by
  induction l with
  | nil => simp [insertLe]
  | cons y ys ih =>
    rw [List.chain'_cons'] at h
    unfold insertLe
    split_ifs with hxy
    · rw [List.chain'_cons']
      refine ⟨?_, by rw [List.chain'_cons']; exact h⟩
      intro z hz
      simp only [List.head?_cons, Option.mem_def, Option.some.injEq] at hz
      subst hz
      exact hxy
    · rw [List.chain'_cons']
      refine ⟨?_, ih h.2⟩
      intro z hz
      rcases insertLe_head x ys with h1 | h1
      · rw [h1] at hz
        simp only [Option.mem_def, Option.some.injEq] at hz
        subst hz
        rcases strLe_total x y with hh | hh
        · exact absurd hh hxy
        · exact hh
      · rw [h1] at hz
        exact h.1 z hz

theorem chain_sortStr (l : List Str) :
    List.Chain' (fun a b => strLe a b = true) (sortStr l) := by
  induction l with
  | nil => simp [sortStr]
  | cons a l ih =>
    show List.Chain' (fun a b => strLe a b = true) (insertLe a (sortStr l))
    exact chain_insertLe a (sortStr l) ih

theorem catScore_eval (text : Str) (k : Intent) (w : Nat) (terms : List Str) :
    catScore text (k, ⟨w, terms⟩)
      = w * (catEvidence text (k, ⟨w, terms⟩)).length := by
  unfold catScore catEvidence
  dsimp only
  by_cases h : (hitsFor text ⟨w, terms⟩).isEmpty
  · simp [h]
  · simp [h, sortStr_length]

theorem catEvidence_nodup (text : Str) (k : Intent) (w : Nat) (terms : List Str) :
    (catEvidence text (k, ⟨w, terms⟩)).Nodup := by
  unfold catEvidence
  dsimp only
  split_ifs with h
  · exact List.nodup_nil
  · exact ((sortStr_perm _).nodup_iff).2 (List.nodup_dedup _)

theorem catEvidence_chain (text : Str) (k : Intent) (w : Nat) (terms : List Str) :
    List.Chain' (fun a b => strLe a b = true) (catEvidence text (k, ⟨w, terms⟩)) := by
  unfold catEvidence
  dsimp only
  split_ifs with h
  · exact List.chain'_nil
  · exact chain_sortStr _

theorem catEvidence_mem (text : Str) (k : Intent) (w : Nat) (terms : List Str)
    (t : Str) :
    t ∈ catEvidence text (k, ⟨w, terms⟩)
      ↔ (t ∈ terms ∧ isSub (lowerStr t) text = true) := by
  unfold catEvidence hitsFor
  dsimp only
  split_ifs with h
  · simp only [List.not_mem_nil, false_iff]
    rintro ⟨ht, hp⟩
    rw [List.isEmpty_iff] at h
    have hmem : t ∈ List.filter (fun term => isSub (lowerStr term) text) terms :=
      List.mem_filter.2 ⟨ht, by exact hp⟩
    rw [h] at hmem
    exact List.not_mem_nil t hmem
  · rw [(sortStr_perm _).mem_iff, List.mem_dedup, List.mem_filter]

theorem catEvidence_nil_iff (text : Str) (k : Intent) (w : Nat) (terms : List Str)
    (hw : w ≠ 0) :
    catEvidence text (k, ⟨w, terms⟩) = [] ↔ catScore text (k, ⟨w, terms⟩) = 0 := by
  unfold catScore catEvidence
  dsimp only
  split_ifs with h
  · simp
  · have hne : (hitsFor text ⟨w, terms⟩).dedup ≠ [] := by
      intro hnil
      rw [List.dedup_eq_nil] at hnil
      rw [List.isEmpty_iff] at h
      exact h hnil
    constructor
    · intro hs
      have := sortStr_length (hitsFor text ⟨w, terms⟩).dedup
      rw [hs] at this
      exact absurd (List.length_eq_zero.1 this.symm) hne
    · intro hs
      rcases Nat.mul_eq_zero.1 hs with h1 | h1
      · exact absurd h1 hw
      · exact absurd (List.length_eq_zero.1 h1) hne

theorem keys_dictSet {α : Type} (m : List (Intent × α)) (k : Intent) (v : α) :
    (dictSet m k v).map Prod.fst = m.map Prod.fst := by
  induction m with
  | nil => rfl
  | cons p ps ih =>
    simp only [dictSet, List.map_cons] at *
    split_ifs with h
    · rw [ih]
      simp [h]
    · rw [ih]

theorem keys_suppressed (e : Email) :
    (suppressed_scores e).map Prod.fst
      = (score_intents e.subject e.body).1.map Prod.fst := by
  unfold suppressed_scores
  split_ifs
  · exact keys_dictSet _ _ _
  · rfl

theorem getScore_suppressed_ne (e : Email) (k : Intent) (hk : k ≠ Intent.SECURITY) :
    getScore (suppressed_scores e) k
      = getScore (score_intents e.subject e.body).1 k := by
  unfold suppressed_scores
  split_ifs with h
  · rw [score_intents_eq]
    cases k
    · rfl
    · rfl
    · exact absurd rfl hk
    · rfl
    · rfl
  · rfl

theorem getScore_suppressed_fire (e : Email)
    (hsu : 1 ≤ getScore (score_intents e.subject e.body).1 Intent.SUPPORT)
    (hse : 0 < getScore (score_intents e.subject e.body).1 Intent.SECURITY)
    (hstr : has_strong_security e = false) :
    getScore (suppressed_scores e) Intent.SECURITY = 0 := by
  unfold suppressed_scores
  rw [if_pos ⟨hsu, hse, hstr⟩, score_intents_eq]
  rfl

theorem suppressed_scores_nofire (e : Email)
    (hstr : has_strong_security e = true) :
    suppressed_scores e = (score_intents e.subject e.body).1 := by
  unfold suppressed_scores
  rw [if_neg]
  rintro ⟨-, -, h3⟩
  rw [hstr] at h3
  cases h3

theorem eed_none (s : Str) (h : (suffixes s).all noAt = true) :
    extract_email_domain s = none := by
  induction s with
  | nil => rfl
  | cons c r ih =>
    rw [suffixes, List.all_cons, Bool.and_eq_true] at h
    obtain ⟨h1, h2⟩ := h
    simp only [noAt] at h1
    simp only [extract_email_domain]
    by_cases hc : c = '@'
    · rw [if_pos hc]
      rw [if_pos hc] at h1
      cases hm : matchHost r with
      | some g => rw [hm] at h1; simp at h1
      | none => exact ih h2
    · rw [if_neg hc]
      exact ih h2

/-! ### Claim theorems -/

/-- C1: for an email whose SUPPORT score is at least 1 and whose SECURITY
score is positive, the SECURITY entry of the returned intent scores is 0
when no strong security term occurs in the lower-cased subject+body, and
equals the Intent Scorer output when one does occur. -/
theorem security_suppression (sender subject body : Str)
    (hsu : 1 ≤ getScore (score_intents subject body).1 Intent.SUPPORT)
    (hse : 0 < getScore (score_intents subject body).1 Intent.SECURITY) :
    (has_strong_security ⟨sender, subject, body⟩ = false →
      getScore (decide_action ⟨sender, subject, body⟩).intent_scores Intent.SECURITY = 0)
    ∧ (has_strong_security ⟨sender, subject, body⟩ = true →
      getScore (decide_action ⟨sender, subject, body⟩).intent_scores Intent.SECURITY
        = getScore (score_intents subject body).1 Intent.SECURITY) := by
  constructor
  · intro h
    rw [da_scores]
    exact getScore_suppressed_fire ⟨sender, subject, body⟩ hsu hse h
  · intro h
    rw [da_scores, suppressed_scores_nofire ⟨sender, subject, body⟩ h]

/-- C1 witness: the "password reset issue" support ticket has SUPPORT
score 3, SECURITY score 10 and no strong security term, and its final
SECURITY score is 0. -/
theorem security_suppression_witness :
    (1 ≤ getScore (score_intents ("password reset issue".data)
        ("I have a problem, my password reset doesn\x27t work".data)).1 Intent.SUPPORT)
    ∧ (0 < getScore (score_intents ("password reset issue".data)
        ("I have a problem, my password reset doesn\x27t work".data)).1 Intent.SECURITY)
    ∧ (has_strong_security ⟨"sam@corp.com".data, "password reset issue".data,
        "I have a problem, my password reset doesn\x27t work".data⟩ = false →
      getScore (decide_action ⟨"sam@corp.com".data, "password reset issue".data,
        "I have a problem, my password reset doesn\x27t work".data⟩).intent_scores
          Intent.SECURITY = 0) :=
  ⟨by decide, by decide,
   (security_suppression ("sam@corp.com".data) ("password reset issue".data)
      ("I have a problem, my password reset doesn\x27t work".data)
      (by decide) (by decide)).1⟩

/-- C2 counterexample: on the text "director", `count_any` over
`ROLE_TERMS` returns 3 ("cto" occurs inside "director", and "director" is
listed twice), while only 2 distinct terms of the list occur. -/
theorem count_any_distinct_counterexample :
    count_any ("director".data) ROLE_TERMS = 3
    ∧ ((ROLE_TERMS.filter
          (fun term => isSub term (lowerStr ("director".data)))).dedup).length = 2 := by
  constructor
  · decide
  · decide

/-- C2 (amended): `count_any(text, terms)` returns the number of entries
of the term list, counted with multiplicity, that occur case-insensitively
as substrings of the text; an entry listed twice (such as "director" in
`ROLE_TERMS`, which feeds `features.role_hits`) is counted once per
occurrence in the list. -/
theorem count_any_entries (text : Str) (terms : List Str) :
    count_any text terms
      = (terms.filter (fun term => isSub term (lowerStr text))).length := by
  rw [count_any, List.countP_eq_length_filter]

/-- C3: the action is selected by first-match evaluation of the ordered
rule list (BLOCK; M&A/LEGAL escalation; roles+urgency+money escalation;
total-risk escalation; otherwise AUTO_REPLY) over the post-suppression
scores. -/
theorem action_priority (sender subject body : Str) :
    ((10 ≤ getScore (decide_action ⟨sender, subject, body⟩).intent_scores Intent.SECURITY
        ∧ 3 ≤ trust_penalty ⟨sender, subject, body⟩) →
      (decide_action ⟨sender, subject, body⟩).action = Action.BLOCK)
    ∧ (¬(10 ≤ getScore (decide_action ⟨sender, subject, body⟩).intent_scores Intent.SECURITY
        ∧ 3 ≤ trust_penalty ⟨sender, subject, body⟩) →
      (5 ≤ getScore (decide_action ⟨sender, subject, body⟩).intent_scores Intent.M_AND_A
        ∨ 8 ≤ getScore (decide_action ⟨sender, subject, body⟩).intent_scores Intent.LEGAL) →
      (decide_action ⟨sender, subject, body⟩).action = Action.ESCALATE_HUMAN)
    ∧ (¬(10 ≤ getScore (decide_action ⟨sender, subject, body⟩).intent_scores Intent.SECURITY
        ∧ 3 ≤ trust_penalty ⟨sender, subject, body⟩) →
      ¬(5 ≤ getScore (decide_action ⟨sender, subject, body⟩).intent_scores Intent.M_AND_A
        ∨ 8 ≤ getScore (decide_action ⟨sender, subject, body⟩).intent_scores Intent.LEGAL) →
      ((decide_action ⟨sender, subject, body⟩).features.mentions_roles = true
        ∧ (decide_action ⟨sender, subject, body⟩).features.mentions_urgency = true
        ∧ (decide_action ⟨sender, subject, body⟩).features.money_mentions ≠ []) →
      (decide_action ⟨sender, subject, body⟩).action = Action.ESCALATE_HUMAN)
    ∧ (¬(10 ≤ getScore (decide_action ⟨sender, subject, body⟩).intent_scores Intent.SECURITY
        ∧ 3 ≤ trust_penalty ⟨sender, subject, body⟩) →
      ¬(5 ≤ getScore (decide_action ⟨sender, subject, body⟩).intent_scores Intent.M_AND_A
        ∨ 8 ≤ getScore (decide_action ⟨sender, subject, body⟩).intent_scores Intent.LEGAL) →
      ¬((decide_action ⟨sender, subject, body⟩).features.mentions_roles = true
        ∧ (decide_action ⟨sender, subject, body⟩).features.mentions_urgency = true
        ∧ (decide_action ⟨sender, subject, body⟩).features.money_mentions ≠ []) →
      10 ≤ total_risk ⟨sender, subject, body⟩ →
      (decide_action ⟨sender, subject, body⟩).action = Action.ESCALATE_HUMAN)
    ∧ (¬(10 ≤ getScore (decide_action ⟨sender, subject, body⟩).intent_scores Intent.SECURITY
        ∧ 3 ≤ trust_penalty ⟨sender, subject, body⟩) →
      ¬(5 ≤ getScore (decide_action ⟨sender, subject, body⟩).intent_scores Intent.M_AND_A
        ∨ 8 ≤ getScore (decide_action ⟨sender, subject, body⟩).intent_scores Intent.LEGAL) →
      ¬((decide_action ⟨sender, subject, body⟩).features.mentions_roles = true
        ∧ (decide_action ⟨sender, subject, body⟩).features.mentions_urgency = true
        ∧ (decide_action ⟨sender, subject, body⟩).features.money_mentions ≠ []) →
      ¬(10 ≤ total_risk ⟨sender, subject, body⟩) →
      (decide_action ⟨sender, subject, body⟩).action = Action.AUTO_REPLY) := by
  simp only [da_action, da_scores, da_features]
  unfold chooseAction
  refine ⟨?_, ?_, ?_, ?_, ?_⟩
  · intro h1
    rw [if_pos h1]
  · intro h1 h2
    rw [if_neg h1, if_pos h2]
  · intro h1 h2 h3
    rw [if_neg h1, if_neg h2, if_pos h3]
  · intro h1 h2 h3 h4
    rw [if_neg h1, if_neg h2, if_neg h3, if_pos h4]
  · intro h1 h2 h3 h4
    rw [if_neg h1, if_neg h2, if_neg h3, if_neg h4]

/-- C3 witness: for the acquisition email the BLOCK rule does not match
(SECURITY score is 0), the M&A escalation rule does match (score 10), and
the action is ESCALATE_HUMAN. -/
theorem action_priority_witness :
    ¬(10 ≤ getScore (decide_action ⟨"ceo@bigcorp.com".data,
          "Urgent: Acquisition proposal".data,
          "We want to acquire your company for $50 million immediately".data⟩).intent_scores
            Intent.SECURITY
        ∧ 3 ≤ trust_penalty ⟨"ceo@bigcorp.com".data,
            "Urgent: Acquisition proposal".data,
            "We want to acquire your company for $50 million immediately".data⟩)
    ∧ (5 ≤ getScore (decide_action ⟨"ceo@bigcorp.com".data,
          "Urgent: Acquisition proposal".data,
          "We want to acquire your company for $50 million immediately".data⟩).intent_scores
            Intent.M_AND_A
        ∨ 8 ≤ getScore (decide_action ⟨"ceo@bigcorp.com".data,
            "Urgent: Acquisition proposal".data,
            "We want to acquire your company for $50 million immediately".data⟩).intent_scores
              Intent.LEGAL)
    ∧ (decide_action ⟨"ceo@bigcorp.com".data,
          "Urgent: Acquisition proposal".data,
          "We want to acquire your company for $50 million immediately".data⟩).action
        = Action.ESCALATE_HUMAN :=
  ⟨fun h => absurd h.1 (by decide), Or.inl (by decide),
   (action_priority ("ceo@bigcorp.com".data) ("Urgent: Acquisition proposal".data)
      ("We want to acquire your company for $50 million immediately".data)).2.1
     (fun h => absurd h.1 (by decide)) (Or.inl (by decide))⟩

/-- C4: the risk field equals the total risk (strategic + operational +
trust penalty, with the documented weights, over the post-suppression
scores) rounded to 2 decimals, and the trust penalty is one of
0, 2, 4, 6. -/
theorem risk_formula (sender subject body : Str) :
    (decide_action ⟨sender, subject, body⟩).risk
      = pyRound2
          (((getScore (decide_action ⟨sender, subject, body⟩).intent_scores Intent.M_AND_A : ℚ) * 1.2
              + (if (decide_action ⟨sender, subject, body⟩).features.mentions_roles = true then 4 else 0)
              + (if (decide_action ⟨sender, subject, body⟩).features.mentions_urgency = true then 2 else 0)
              + (if (decide_action ⟨sender, subject, body⟩).features.money_mentions ≠ [] then 3 else 0))
            + ((getScore (decide_action ⟨sender, subject, body⟩).intent_scores Intent.SECURITY : ℚ) * 1.3
              + (getScore (decide_action ⟨sender, subject, body⟩).intent_scores Intent.LEGAL : ℚ) * 1.1)
            + trust_penalty ⟨sender, subject, body⟩)
    ∧ (trust_penalty ⟨sender, subject, body⟩ = 0
        ∨ trust_penalty ⟨sender, subject, body⟩ = 2
        ∨ trust_penalty ⟨sender, subject, body⟩ = 4
        ∨ trust_penalty ⟨sender, subject, body⟩ = 6)
    ∧ trust_penalty ⟨sender, subject, body⟩
      = (if (decide_action ⟨sender, subject, body⟩).features.sender_is_free_domain = true then 2 else 0)
        + (if 2 ≤ (decide_action ⟨sender, subject, body⟩).features.urls.length then 2 else 0)
        + (if 1 ≤ (decide_action ⟨sender, subject, body⟩).features.phones.length
              ∧ 0 < getScore (decide_action ⟨sender, subject, body⟩).intent_scores Intent.SECURITY
            then 2 else 0) := by
  refine ⟨rfl, ?_, rfl⟩
  unfold trust_penalty
  split_ifs <;> norm_num

/-- C5: for each declared category, `score_intents` (over the lower-cased
subject+body) returns score = weight × number of distinct matched terms
(the length of the evidence list), and evidence = the matched terms,
without duplicates, sorted ascending; a category with no matched term
keeps score 0 and empty evidence. -/
theorem score_intents_spec (subject body : Str) (k : Intent) (w : Nat)
    (terms : List Str)
    (hk : (k, (⟨w, terms⟩ : IntentRule)) ∈ INTENT_RULES) :
    getScore (score_intents subject body).1 k
      = w * (getEvidence (score_intents subject body).2 k).length
    ∧ (getEvidence (score_intents subject body).2 k).Nodup
    ∧ List.Chain' (fun a b => strLe a b = true)
        (getEvidence (score_intents subject body).2 k)
    ∧ (∀ t : Str, t ∈ getEvidence (score_intents subject body).2 k
        ↔ (t ∈ terms ∧ isSub (lowerStr t) (lowerStr (subject ++ '\n' :: body)) = true)) := by
  simp only [INTENT_RULES, List.mem_cons, List.not_mem_nil, or_false,
    Prod.mk.injEq, IntentRule.mk.injEq] at hk
  rcases hk with ⟨rfl, rfl, rfl⟩ | ⟨rfl, rfl, rfl⟩ | ⟨rfl, rfl, rfl⟩ |
    ⟨rfl, rfl, rfl⟩ | ⟨rfl, rfl, rfl⟩ <;>
  exact ⟨by rw [getScore_cat, getEvidence_cat]; exact catScore_eval _ _ _ _,
         by rw [getEvidence_cat]; exact catEvidence_nodup _ _ _ _,
         by rw [getEvidence_cat]; exact catEvidence_chain _ _ _ _,
         by rw [getEvidence_cat]; exact fun t => catEvidence_mem _ _ _ _ t⟩

/-- C5 witness: the SUPPORT rule is in `INTENT_RULES`, and on the empty
email the SUPPORT score is 0 with empty evidence relations holding. -/
theorem score_intents_spec_witness :
    ((Intent.SUPPORT, (⟨1, strs
        ["help", "issue", "bug", "problem", "doesn\x27t work", "error",
         "ayuda", "incidencia", "fallo", "no funciona", "problema"]⟩ : IntentRule))
      ∈ INTENT_RULES)
    ∧ (getScore (score_intents [] []).1 Intent.SUPPORT
        = 1 * (getEvidence (score_intents [] []).2 Intent.SUPPORT).length
      ∧ (getEvidence (score_intents [] []).2 Intent.SUPPORT).Nodup
      ∧ List.Chain' (fun a b => strLe a b = true)
          (getEvidence (score_intents [] []).2 Intent.SUPPORT)
      ∧ (∀ t : Str, t ∈ getEvidence (score_intents [] []).2 Intent.SUPPORT
          ↔ (t ∈ strs
              ["help", "issue", "bug", "problem", "doesn\x27t work", "error",
               "ayuda", "incidencia", "fallo", "no funciona", "problema"]
             ∧ isSub (lowerStr t) (lowerStr ([] ++ '\n' :: [])) = true))) :=
  ⟨by decide,
   score_intents_spec [] [] Intent.SUPPORT 1 _ (by decide)⟩

/-- C6: when the suppression rule fires, the returned intent evidence is
unchanged (in particular the SECURITY evidence still lists the originally
matched terms and is non-empty), the features are unchanged, and among
the intent scores only the SECURITY entry is modified (to 0). -/
theorem suppression_frame (sender subject body : Str)
    (hsu : 1 ≤ getScore (score_intents subject body).1 Intent.SUPPORT)
    (hse : 0 < getScore (score_intents subject body).1 Intent.SECURITY)
    (hstr : has_strong_security ⟨sender, subject, body⟩ = false) :
    (decide_action ⟨sender, subject, body⟩).intent_evidence
        = (score_intents subject body).2
    ∧ (decide_action ⟨sender, subject, body⟩).features
        = extract_features ⟨sender, subject, body⟩
    ∧ (∀ k : Intent, k ≠ Intent.SECURITY →
        getScore (decide_action ⟨sender, subject, body⟩).intent_scores k
          = getScore (score_intents subject body).1 k)
    ∧ getScore (decide_action ⟨sender, subject, body⟩).intent_scores Intent.SECURITY = 0
    ∧ getEvidence (decide_action ⟨sender, subject, body⟩).intent_evidence Intent.SECURITY
        = getEvidence (score_intents subject body).2 Intent.SECURITY
    ∧ getEvidence (decide_action ⟨sender, subject, body⟩).intent_evidence Intent.SECURITY
        ≠ [] := by
  refine ⟨rfl, rfl, ?_, ?_, rfl, ?_⟩
  · intro k hk
    rw [da_scores]
    exact getScore_suppressed_ne ⟨sender, subject, body⟩ k hk
  · rw [da_scores]
    exact getScore_suppressed_fire ⟨sender, subject, body⟩ hsu hse hstr
  · rw [da_evidence]
    show getEvidence (score_intents subject body).2 Intent.SECURITY ≠ []
    rw [getScore_cat] at hse
    rw [getEvidence_cat]
    intro hnil
    rw [catEvidence_nil_iff _ _ _ _ (by decide)] at hnil
    rw [hnil] at hse
    exact absurd hse (lt_irrefl 0)

/-- C6 witness: the "password reset issue" support ticket satisfies the
suppression hypotheses and its SECURITY evidence is unchanged. -/
theorem suppression_frame_witness :
    (1 ≤ getScore (score_intents ("password reset issue".data)
        ("I have a problem, my password reset doesn\x27t work".data)).1 Intent.SUPPORT)
    ∧ (0 < getScore (score_intents ("password reset issue".data)
        ("I have a problem, my password reset doesn\x27t work".data)).1 Intent.SECURITY)
    ∧ (has_strong_security ⟨"sam@corp.com".data, "password reset issue".data,
        "I have a problem, my password reset doesn\x27t work".data⟩ = false)
    ∧ getEvidence (decide_action ⟨"sam@corp.com".data, "password reset issue".data,
        "I have a problem, my password reset doesn\x27t work".data⟩).intent_evidence
          Intent.SECURITY
        ≠ [] :=
  ⟨by decide, by decide, by decide,
   (suppression_frame ("sam@corp.com".data) ("password reset issue".data)
      ("I have a problem, my password reset doesn\x27t work".data)
      (by decide) (by decide) (by decide)).2.2.2.2.2⟩

/-- C7: when the sender contains no substring "@" followed by a
dot-separated host with a top-level label of at least 2 letters,
`extract_email_domain` returns the no-match result, the sender domain is
the empty string, and the sender is treated as a free domain. -/
theorem unparseable_sender (sender subject body : Str)
    (h : (suffixes sender).all noAt = true) :
    extract_email_domain sender = none
    ∧ (extract_features ⟨sender, subject, body⟩).sender_domain = []
    ∧ (extract_features ⟨sender, subject, body⟩).sender_is_free_domain = true := by
  have h0 := eed_none sender h
  refine ⟨h0, ?_, ?_⟩
  · unfold extract_features
    dsimp only
    rw [h0]
    rfl
  · unfold extract_features
    dsimp only
    rw [h0]
    rfl

/-- C7 witness: a sender without any address-like substring yields an
empty domain and the free-domain default. -/
theorem unparseable_sender_witness :
    ((suffixes ("john.doe at example dot com".data)).all noAt = true)
    ∧ (extract_email_domain ("john.doe at example dot com".data) = none
      ∧ (extract_features ⟨"john.doe at example dot com".data, "hi".data,
          "there".data⟩).sender_domain = []
      ∧ (extract_features ⟨"john.doe at example dot com".data, "hi".data,
          "there".data⟩).sender_is_free_domain = true) :=
  ⟨by decide,
   unparseable_sender ("john.doe at example dot com".data) ("hi".data)
     ("there".data) (by decide)⟩

/-- C8: `decide_action` is total and well-formed on arbitrary strings
(all five score and evidence keys present, the action one of the three
legal values), and the all-empty email produces the zero/false/empty
defaults (with the unparseable sender conservatively treated as a free
domain). -/
theorem decide_action_total :
    (∀ sender subject body : Str,
      ((decide_action ⟨sender, subject, body⟩).intent_scores.map Prod.fst
          = [Intent.M_AND_A, Intent.LEGAL, Intent.SECURITY, Intent.SALES, Intent.SUPPORT]
        ∧ (decide_action ⟨sender, subject, body⟩).intent_evidence.map Prod.fst
          = [Intent.M_AND_A, Intent.LEGAL, Intent.SECURITY, Intent.SALES, Intent.SUPPORT]
        ∧ ((decide_action ⟨sender, subject, body⟩).action = Action.AUTO_REPLY
          ∨ (decide_action ⟨sender, subject, body⟩).action = Action.ESCALATE_HUMAN
          ∨ (decide_action ⟨sender, subject, body⟩).action = Action.BLOCK)))
    ∧ ((decide_action ⟨[], [], []⟩).intent_scores
          = [(Intent.M_AND_A, 0), (Intent.LEGAL, 0), (Intent.SECURITY, 0),
             (Intent.SALES, 0), (Intent.SUPPORT, 0)]
      ∧ (decide_action ⟨[], [], []⟩).intent_evidence
          = [(Intent.M_AND_A, []), (Intent.LEGAL, []), (Intent.SECURITY, []),
             (Intent.SALES, []), (Intent.SUPPORT, [])]
      ∧ (decide_action ⟨[], [], []⟩).features
          = { sender_domain := []
              sender_is_free_domain := true
              mentions_roles := false
              role_hits := 0
              mentions_urgency := false
              urgency_hits := 0
              money_mentions := []
              urls := []
              phones := []
              length := 1 }
      ∧ (decide_action ⟨[], [], []⟩).action = Action.AUTO_REPLY) := by
  constructor
  · intro sender subject body
    refine ⟨?_, ?_, ?_⟩
    · rw [da_scores, keys_suppressed ⟨sender, subject, body⟩]
      show (score_intents subject body).1.map Prod.fst = _
      rw [score_intents_eq]
      rfl
    · rw [da_evidence]
      show (score_intents subject body).2.map Prod.fst = _
      rw [score_intents_eq]
      rfl
    · rw [da_action]
      unfold chooseAction
      split_ifs <;> simp
  · refine ⟨by decide, by decide, by decide, ?_⟩
    have htr : total_risk ⟨[], [], []⟩ = 2 := by
      have e1 : getScore (suppressed_scores ⟨[], [], []⟩) Intent.M_AND_A = 0 := by decide
      have e2 : getScore (suppressed_scores ⟨[], [], []⟩) Intent.SECURITY = 0 := by decide
      have e3 : getScore (suppressed_scores ⟨[], [], []⟩) Intent.LEGAL = 0 := by decide
      have f1 : (extract_features ⟨[], [], []⟩).mentions_roles = false := by decide
      have f2 : (extract_features ⟨[], [], []⟩).mentions_urgency = false := by decide
      have f3 : (extract_features ⟨[], [], []⟩).money_mentions = [] := by decide
      have f4 : (extract_features ⟨[], [], []⟩).sender_is_free_domain = true := by decide
      have f5 : (extract_features ⟨[], [], []⟩).urls = [] := by decide
      have f6 : (extract_features ⟨[], [], []⟩).phones = [] := by decide
      unfold total_risk strategic_risk operational_risk trust_penalty
      rw [e1, e2, e3, f1, f2, f3, f4, f5, f6]
      norm_num
    have hA : ¬(10 ≤ getScore (suppressed_scores ⟨[], [], []⟩) Intent.SECURITY
        ∧ 3 ≤ trust_penalty ⟨[], [], []⟩) := fun h => absurd h.1 (by decide)
    have hB : ¬(5 ≤ getScore (suppressed_scores ⟨[], [], []⟩) Intent.M_AND_A
        ∨ 8 ≤ getScore (suppressed_scores ⟨[], [], []⟩) Intent.LEGAL) := by decide
    have hC : ¬((extract_features ⟨[], [], []⟩).mentions_roles = true
        ∧ (extract_features ⟨[], [], []⟩).mentions_urgency = true
        ∧ (extract_features ⟨[], [], []⟩).money_mentions ≠ []) := by decide
    have hD : ¬(10 ≤ total_risk ⟨[], [], []⟩) := by
      rw [htr]
      norm_num
    rw [da_action]
    unfold chooseAction
    rw [if_neg hA, if_neg hB, if_neg hC, if_neg hD]

/-- C9: every declared intent category appears as a key of both the
scores and the evidence, in the `score_intents` output and in the
returned Decision. -/
theorem intent_keys_present (sender subject body : Str) (k : Intent) :
    k ∈ (score_intents subject body).1.map Prod.fst
    ∧ k ∈ (score_intents subject body).2.map Prod.fst
    ∧ k ∈ (decide_action ⟨sender, subject, body⟩).intent_scores.map Prod.fst
    ∧ k ∈ (decide_action ⟨sender, subject, body⟩).intent_evidence.map Prod.fst := by
  have h1 : (score_intents subject body).1.map Prod.fst
      = [Intent.M_AND_A, Intent.LEGAL, Intent.SECURITY, Intent.SALES, Intent.SUPPORT] := by
    rw [score_intents_eq]
    rfl
  have h2 : (score_intents subject body).2.map Prod.fst
      = [Intent.M_AND_A, Intent.LEGAL, Intent.SECURITY, Intent.SALES, Intent.SUPPORT] := by
    rw [score_intents_eq]
    rfl
  have hmem : k ∈ [Intent.M_AND_A, Intent.LEGAL, Intent.SECURITY, Intent.SALES,
      Intent.SUPPORT] := by
    cases k <;> simp
  refine ⟨?_, ?_, ?_, ?_⟩
  · rw [h1]
    exact hmem
  · rw [h2]
    exact hmem
  · rw [da_scores, keys_suppressed ⟨sender, subject, body⟩]
    show k ∈ (score_intents subject body).1.map Prod.fst
    rw [h1]
    exact hmem
  · rw [da_evidence]
    show k ∈ (score_intents subject body).2.map Prod.fst
    rw [h2]
    exact hmem

/-- C10: for every category, the `score_intents` score equals the declared
weight times the evidence length, so evidence is empty exactly when the
score is 0; in the returned Decision this equivalence still holds for
every category other than SECURITY (only the suppression rule can break
it). -/
theorem score_evidence_relation (sender subject body : Str) (k : Intent) :
    getScore (score_intents subject body).1 k
      = weightOf k * (getEvidence (score_intents subject body).2 k).length
    ∧ (getEvidence (score_intents subject body).2 k = []
        ↔ getScore (score_intents subject body).1 k = 0)
    ∧ (k ≠ Intent.SECURITY →
        (getEvidence (decide_action ⟨sender, subject, body⟩).intent_evidence k = []
          ↔ getScore (decide_action ⟨sender, subject, body⟩).intent_scores k = 0)) := by
  have hw : weightOf k ≠ 0 := by cases k <;> decide
  have h2 : getEvidence (score_intents subject body).2 k = []
      ↔ getScore (score_intents subject body).1 k = 0 := by
    rw [getScore_cat, getEvidence_cat]
    exact catEvidence_nil_iff _ _ _ _ hw
  refine ⟨?_, h2, ?_⟩
  · rw [getScore_cat, getEvidence_cat]
    exact catScore_eval _ _ _ _
  · intro hk
    rw [da_evidence, da_scores]
    show getEvidence (score_intents subject body).2 k = []
      ↔ getScore (suppressed_scores ⟨sender, subject, body⟩) k = 0
    rw [getScore_suppressed_ne ⟨sender, subject, body⟩ k hk]
    exact h2

/-- C10 witness: for the SUPPORT key (distinct from SECURITY) of the empty
email, the evidence-empty / score-zero equivalence holds in the Decision. -/
theorem score_evidence_relation_witness :
    (Intent.SUPPORT ≠ Intent.SECURITY)
    ∧ (getEvidence (decide_action ⟨[], [], []⟩).intent_evidence Intent.SUPPORT = []
        ↔ getScore (decide_action ⟨[], [], []⟩).intent_scores Intent.SUPPORT = 0) :=
  ⟨by decide, (score_evidence_relation [] [] [] Intent.SUPPORT).2.2 (by decide)⟩

end SupervisorDemo
